import Mathlib

/-!
Shallow embedding of the dentist-ai receptionist bridge
(src/index.js; src/unnamed/part_000 and src/unnamed/part_001 are earlier and
later iterations of the same file; the tool dispatcher is identical in all
three, and the bridge handlers are embedded from src/unnamed/part_001, whose
logic index.js shares).

Modelling conventions:
  - JavaScript strings are Lean String; toLowerCase and includes are embedded
    over the character list (the data involved is ASCII, where they agree).
  - The argument object of a tool call is a structure of optional fields;
    a missing property is none.  JavaScript truthiness of a string-valued
    property is: present and nonempty.
  - The Twilio SMS transport is an oracle parameter: given the to and body
    values it either returns a message sid or throws.  Throwing JavaScript
    code is embedded with Except.  Every call of the oracle is recorded in an
    effect log, so absence of side effects is provable.
  - The mutable server state visible to the dispatcher is made explicit as a
    structure holding the slot table.  The source never assigns to SLOTS, so
    every branch returns the state it received.
  - An inbound websocket frame is Option of an event type: none stands for a
    frame on which JSON.parse (or a property access on the parsed object)
    throws inside the try of the handler.
  - The two message handlers are pure functions from one inbound frame to the
    instructions they send on each leg, modelled in the ACTIVE session state
    (both sockets open, send does not throw).  The threw flag records whether
    an exception escapes the callback, which is what could fail a connection.
-/

namespace DentistAI

/-- One appointment slot, from the SLOTS table (src/index.js lines 34-38). -/
structure Slot where
  id : String
  label : String
deriving DecidableEq, Repr

/-- The static demo slot table SLOTS (src/index.js lines 34-38). -/
def SLOTS : List Slot :=
  [⟨"tue-1030", "Tue 10:30 AM (Hygienist)"⟩,
   ⟨"tue-1415", "Tue 2:15 PM (Hygienist)"⟩,
   ⟨"wed-0900", "Wed 9:00 AM (Dr. Lee)"⟩]

/-- The in-house knowledge base object FAQ (src/index.js lines 26-32). -/
structure FAQKB where
  hours : String
  address : String
  insurance : String
  parking : String
  new_patients : String
deriving DecidableEq, Repr

def FAQ : FAQKB :=
  { hours := "Mon–Fri 8am–5pm; Sat 9am–1pm; closed Sunday."
    address := "1234 Naples Blvd, Suite 200, Naples, FL 34102."
    insurance := "We accept most PPO plans including Delta Dental and Cigna. Call for specifics."
    parking := "Free lot behind the building; enter via 2nd Street."
    new_patients := "Yes, we’re accepting new patients. Bring a photo ID and your insurance card." }

/-- The fixed deflection answer of getFAQ (src/index.js line 58). -/
def FAQ_DEFLECT : String := "I\x27m not sure—let me connect you to our staff."

/-- JavaScript String.prototype.toLowerCase, over ASCII data. -/
def jsToLower (s : String) : String := ⟨s.data.map Char.toLower⟩

/-- pat occurs as a contiguous sublist of l. -/
def listInfix (pat : List Char) : List Char → Bool
  | [] => pat.isPrefixOf []
  | c :: rest => pat.isPrefixOf (c :: rest) || listInfix pat rest

/-- JavaScript s.includes(pat): pat occurs as a substring of s. -/
def jsIncludes (s pat : String) : Bool := listInfix pat.data s.data

/-- The argument object of a tool call; every property the four tool schemas
declare, each possibly absent. -/
structure Args where
  question : Option String := none
  slotId : Option String := none
  name : Option String := none
  phone : Option String := none
  reason : Option String := none
  sendTo : Option String := none   -- the property named to in the source (to is a Lean keyword)
  message : Option String := none
  date : Option String := none
  provider : Option String := none
  window : Option String := none
deriving DecidableEq, Repr

/-- JavaScript truthiness of an optional string property. -/
def jsTruthy : Option String → Bool
  | none => false
  | some s => s ≠ ""

/-- One recorded call of the SMS transport (the arguments sendSMS was given;
the first field is the property named to in the source). -/
structure SmsSend where
  sendTo : Option String
  body : Option String
deriving DecidableEq, Repr

/-- The Twilio SMS transport as an oracle: sid on success, thrown error
message on failure (src/index.js lines 41-46 delegate to the twilio client). -/
def SmsTransport : Type := Option String → Option String → Except String String

/-- The result objects handleToolCall can return (src/index.js lines 49-74). -/
inductive ToolResult where
  | answer (a : String)
  | slots (l : List Slot)
  | booked (s : Slot)
  | sent (sid : String)
  | err (msg : String)
deriving DecidableEq, Repr

/-- The mutable state the dispatcher can see: the slot table.  Explicit so
that absence of mutation is a provable statement rather than an assumption. -/
structure ServerState where
  slots : List Slot
deriving DecidableEq, Repr

/-- The state at process start: SLOTS as initialised at the top of the file. -/
def initialState : ServerState := ⟨SLOTS⟩

/-- The SMS body template of the bookSlot branch (src/index.js line 66). -/
def bookBody (found : Slot) : String :=
  "Booked: " ++ found.label ++ ". Address: " ++ FAQ.address

/-- The tool dispatcher handleToolCall (src/index.js lines 49-74; identical in
src/unnamed/part_000 lines 38-63 and src/unnamed/part_001 lines 49-75).
The slot table is threaded as explicit state; the source contains no
assignment to SLOTS, so every branch returns the state it was given.  The
first component pairs the returned (or thrown) value with the log of SMS
transport calls made. -/
def handleToolCallSt (sms : SmsTransport) (name : String) (args : Args)
    (st : ServerState) : (Except String ToolResult × List SmsSend) × ServerState :=
  if name = "getFAQ" then
    let q := jsToLower (args.question.getD "")
    let a :=
      if jsIncludes q "hour" then FAQ.hours
      else if jsIncludes q "address" || jsIncludes q "location" then FAQ.address
      else if jsIncludes q "insurance" then FAQ.insurance
      else if jsIncludes q "parking" then FAQ.parking
      else if jsIncludes q "new patient" then FAQ.new_patients
      else FAQ_DEFLECT
    ((Except.ok (ToolResult.answer a), []), st)
  else if name = "getSlots" then
    ((Except.ok (ToolResult.slots st.slots), []), st)
  else if name = "bookSlot" then
    match st.slots.find? (fun s => args.slotId == some s.id) with
    | none => ((Except.ok (ToolResult.err "Slot not found"), []), st)
    | some found =>
      if jsTruthy args.phone then
        match sms args.phone (some (bookBody found)) with
        | Except.error e => ((Except.error e, [⟨args.phone, some (bookBody found)⟩]), st)
        | Except.ok _ => ((Except.ok (ToolResult.booked found), [⟨args.phone, some (bookBody found)⟩]), st)
      else ((Except.ok (ToolResult.booked found), []), st)
  else if name = "sendSMS" then
    match sms args.sendTo args.message with
    | Except.error e => ((Except.error e, [⟨args.sendTo, args.message⟩]), st)
    | Except.ok sid => ((Except.ok (ToolResult.sent sid), [⟨args.sendTo, args.message⟩]), st)
  else ((Except.ok (ToolResult.err "Unknown tool"), []), st)

/-- handleToolCall as the callers use it: the dispatcher run against the
process-start state (the source reads the global SLOTS). -/
def handleToolCall (sms : SmsTransport) (name : String) (args : Args) :
    Except String ToolResult × List SmsSend :=
  (handleToolCallSt sms name args initialState).1

/-- An SMS transport that always succeeds. -/
def smsOkStub : SmsTransport := fun _ _ => Except.ok "SM123"

/-- An SMS transport that always throws. -/
def smsFailStub : SmsTransport := fun _ _ => Except.error "sms send failed"

/-- An SMS transport that always succeeds: every call returns some sid. -/
def smsAlwaysOk (sms : SmsTransport) : Prop :=
  ∀ a b, ∃ sid, sms a b = Except.ok sid

/-- An inbound event on the model leg, as the handler at
src/unnamed/part_001 lines 283-308 distinguishes them after JSON.parse. -/
inductive RtEvent where
  | audioDelta (audio : String)
  | functionCall (name : String) (arguments : Option Args) (callId : String)
  | errorEvt
  | other (t : String)
deriving DecidableEq, Repr

/-- An inbound event on the call (Twilio) leg, as the handler at
src/unnamed/part_001 lines 311-331 distinguishes them after JSON.parse.
In the media case, none for the media field stands for a frame whose parsed
object lacks that property, so that the property access msg.media.payload
throws inside the try. -/
inductive TwilioEvent where
  | start (callSid : Option String)
  | media (payload : Option String)
  | stop
  | other (e : String)
deriving DecidableEq, Repr

/-- An instruction sent on the model leg.  The output field of a
function-call result is kept structured (the source serialises it with
JSON.stringify); the correlation identifier is carried verbatim. -/
inductive ModelOut where
  | appendAudio (audio : String)
  | commit
  | responseCreate
  | functionCallOutput (callId : String) (output : ToolResult)
deriving DecidableEq, Repr

/-- An instruction sent on the call (Twilio) leg. -/
inductive TwilioOut where
  | media (payload : String)
deriving DecidableEq, Repr

/-- What one invocation of a message handler does: the instructions sent on
each leg, in order, and whether an exception escaped the callback (an escaped
exception is what could fail the connection). -/
structure HandlerOutput where
  toModel : List ModelOut := []
  toTwilio : List TwilioOut := []
  threw : Bool := false
deriving DecidableEq, Repr

/-- The model-leg message handler (src/unnamed/part_001 lines 283-308;
src/index.js lines 264-282 has the same observable behaviour), in the ACTIVE
session state.  none stands for an unparseable frame: JSON.parse throws, the
catch returns.  An error event is logged only; a function-call event runs the
dispatcher and, on completion, sends exactly one function_call_output with
the same call_id; a dispatcher exception is caught and logged and nothing is
sent. -/
def handleRtMessage (sms : SmsTransport) (frame : Option RtEvent) : HandlerOutput :=
  match frame with
  | none => {}
  | some (RtEvent.audioDelta a) => { toTwilio := [TwilioOut.media a] }
  | some (RtEvent.functionCall name args callId) =>
    match (handleToolCall sms name (args.getD {})).1 with
    | Except.ok result => { toModel := [ModelOut.functionCallOutput callId result] }
    | Except.error _ => {}
  | some RtEvent.errorEvt => {}
  | some (RtEvent.other _) => {}

/-- The call-leg (Twilio) message handler (src/unnamed/part_001 lines
311-331; src/index.js lines 291-309 is identical).  rtReady is the value of
rt and rt.readyState === 1; the whole body is inside a try whose catch
discards the frame.  A start event is logged only; a media event forwards the
payload as an append instruction when the model leg is ready (a frame without
a media object throws on the property access and is discarded); a stop event
sends a commit followed by a response-request, both unconditionally. -/
def handleTwilioMessage (rtReady : Bool) (frame : Option TwilioEvent) : HandlerOutput :=
  match frame with
  | none => {}
  | some (TwilioEvent.start _) => {}
  | some (TwilioEvent.media none) => {}
  | some (TwilioEvent.media (some payload)) =>
    if rtReady then { toModel := [ModelOut.appendAudio payload] } else {}
  | some TwilioEvent.stop =>
    if rtReady then { toModel := [ModelOut.commit, ModelOut.responseCreate] } else {}
  | some (TwilioEvent.other _) => {}

/-- The model-leg instructions emitted over a sequence of call-leg frames,
in order. -/
def processTwilioFrames (rtReady : Bool) : List (Option TwilioEvent) → List ModelOut
  | [] => []
  | f :: rest => (handleTwilioMessage rtReady f).toModel ++ processTwilioFrames rtReady rest

/-- The model-leg instructions emitted over a sequence of model-leg frames,
in order. -/
def processRtFrames (sms : SmsTransport) : List (Option RtEvent) → List ModelOut
  | [] => []
  | f :: rest => (handleRtMessage sms f).toModel ++ processRtFrames sms rest

/-- Number of stop events in a sequence of call-leg frames. -/
def stopCount (frames : List (Option TwilioEvent)) : Nat :=
  frames.countP fun f => match f with
    | some TwilioEvent.stop => true
    | _ => false

/-- Number of commit instructions in a sequence of model-leg instructions. -/
def commitCount (outs : List ModelOut) : Nat :=
  outs.countP fun o => match o with
    | ModelOut.commit => true
    | _ => false

/-- Number of response-request instructions in a sequence of model-leg
instructions. -/
def responseCreateCount (outs : List ModelOut) : Nat :=
  outs.countP fun o => match o with
    | ModelOut.responseCreate => true
    | _ => false

/-- Number of function-call events carrying a given correlation id in a
sequence of model-leg frames. -/
def callCountFor (c : String) (frames : List (Option RtEvent)) : Nat :=
  frames.countP fun f => match f with
    | some (RtEvent.functionCall _ _ cid) => cid == c
    | _ => false

/-- Number of function-call results carrying a given correlation id in a
sequence of model-leg instructions. -/
def outputCountFor (c : String) (outs : List ModelOut) : Nat :=
  outs.countP fun o => match o with
    | ModelOut.functionCallOutput cid _ => cid == c
    | _ => false

/-- Modelled from the spec: the ordered keyword table the spec describes for
lookup, in priority order hours, address/location, insurance, parking,
new-patient, each entry a keyword set and its canned answer.  Used only to
compare the spec reading of getFAQ against the source dispatcher. -/
def specFaqTable : List (List String × String) :=
  [(["hour"], FAQ.hours),
   (["address", "location"], FAQ.address),
   (["insurance"], FAQ.insurance),
   (["parking"], FAQ.parking),
   (["new patient"], FAQ.new_patients)]

/-- Modelled from the spec: case-insensitive substring match against the
ordered keyword table, first match wins, fixed deflection answer when no
keyword matches. -/
def specFaqLookup (q : String) : String :=
  match specFaqTable.find? (fun e => e.1.any (fun k => jsIncludes (jsToLower q) k)) with
  | some e => e.2
  | none => FAQ_DEFLECT

/-- The argument object of the booking example of the spec. -/
def janeArgs : Args :=
  { slotId := some "wed-0900", name := some "Jane Doe", phone := some "+15551234567" }

/-- The argument object of the unknown-slot booking example of the spec. -/
def nopeArgs : Args :=
  { slotId := some "nope", name := some "Jane Doe", phone := some "+1555..." }

/-- The slot the booking example targets. -/
def wedSlot : Slot := ⟨"wed-0900", "Wed 9:00 AM (Dr. Lee)"⟩

/-- Run a sequence of tool calls, threading the dispatcher state. -/
def runCalls (sms : SmsTransport) (calls : List (String × Args)) (st : ServerState) :
    ServerState :=
  calls.foldl (fun s c => (handleToolCallSt sms c.1 c.2 s).2) st

/-- The results of a sequence of tool calls, threading the dispatcher state. -/
def runResults (sms : SmsTransport) :
    List (String × Args) → ServerState → List (Except String ToolResult)
  | [], _ => []
  | c :: rest, st =>
    (handleToolCallSt sms c.1 c.2 st).1.1 :: runResults sms rest (handleToolCallSt sms c.1 c.2 st).2

/-! Helper lemmas shared by several claims. -/

/-- The bookSlot branch of the dispatcher, unfolded at its name. -/
theorem bookSlot_eq (sms : SmsTransport) (args : Args) (st : ServerState) :
    handleToolCallSt sms "bookSlot" args st =
      (match st.slots.find? (fun s => args.slotId == some s.id) with
       | none => ((Except.ok (ToolResult.err "Slot not found"), []), st)
       | some found =>
         if jsTruthy args.phone then
           match sms args.phone (some (bookBody found)) with
           | Except.error e => ((Except.error e, [⟨args.phone, some (bookBody found)⟩]), st)
           | Except.ok _ => ((Except.ok (ToolResult.booked found), [⟨args.phone, some (bookBody found)⟩]), st)
         else ((Except.ok (ToolResult.booked found), []), st)) := rfl

/-- The sendSMS branch of the dispatcher, unfolded at its name. -/
theorem sendSMS_eq (sms : SmsTransport) (args : Args) (st : ServerState) :
    handleToolCallSt sms "sendSMS" args st =
      (match sms args.sendTo args.message with
       | Except.error e => ((Except.error e, [⟨args.sendTo, args.message⟩]), st)
       | Except.ok sid => ((Except.ok (ToolResult.sent sid), [⟨args.sendTo, args.message⟩]), st)) := rfl

/-- The dispatcher never changes the server state: the source contains no
assignment to the slot table. -/
theorem handleToolCallSt_state (sms : SmsTransport) (n : String) (a : Args)
    (st : ServerState) : (handleToolCallSt sms n a st).2 = st := by
  unfold handleToolCallSt
  repeat' split
  all_goals rfl

/-- With a transport that always succeeds, the dispatcher always completes
with a returned value (its only exception paths are rethrown SMS errors). -/
theorem handleToolCall_ok (sms : SmsTransport) (hok : smsAlwaysOk sms)
    (name : String) (args : Args) :
    ∃ r, (handleToolCall sms name args).1 = Except.ok r := by
  by_cases h1 : name = "getFAQ"
  · subst h1; exact ⟨_, rfl⟩
  by_cases h2 : name = "getSlots"
  · subst h2; exact ⟨_, rfl⟩
  by_cases h3 : name = "bookSlot"
  · subst h3
    unfold handleToolCall
    rw [bookSlot_eq, show initialState.slots = SLOTS from rfl]
    cases hf : SLOTS.find? (fun s => args.slotId == some s.id) with
    | none => exact ⟨_, rfl⟩
    | some found =>
      cases ht : jsTruthy args.phone with
      | false => exact ⟨ToolResult.booked found, by simp [ht]⟩
      | true =>
        obtain ⟨sid, hs⟩ := hok args.phone (some (bookBody found))
        exact ⟨ToolResult.booked found, by simp [ht, hs]⟩
  by_cases h4 : name = "sendSMS"
  · subst h4
    obtain ⟨sid, hs⟩ := hok args.sendTo args.message
    unfold handleToolCall
    rw [sendSMS_eq, hs]
    exact ⟨_, rfl⟩
  · unfold handleToolCall handleToolCallSt
    rw [if_neg h1, if_neg h2, if_neg h3, if_neg h4]
    exact ⟨_, rfl⟩

/-- Booking a slot the concrete table finds succeeds when the SMS transport
succeeds. -/
theorem bookSlot_ok (sms : SmsTransport) (hok : smsAlwaysOk sms) (args : Args)
    (found : Slot)
    (hfind : SLOTS.find? (fun s => args.slotId == some s.id) = some found) :
    (handleToolCallSt sms "bookSlot" args initialState).1.1
      = Except.ok (ToolResult.booked found) := by
  rw [bookSlot_eq, show initialState.slots = SLOTS from rfl, hfind]
  cases ht : jsTruthy args.phone with
  | false => simp [ht]
  | true =>
    obtain ⟨sid, hs⟩ := hok args.phone (some (bookBody found))
    simp [ht, hs]

/-! The claims. -/

/-- C1: for every function-call event received from the model leg while the
session is ACTIVE, exactly one result event of type
response.function_call_output carrying the same call_id is sent back on the
model leg, assuming the tool handler completes: the handler for such an event
emits exactly the one correlated result, and over any frame sequence the
number of results correlated to an id equals the number of function-call
events carrying that id. -/
theorem c1_function_call_exactly_one_result (sms : SmsTransport)
    (hok : smsAlwaysOk sms) :
    (∀ name args callId r,
        (handleToolCall sms name (args.getD {})).1 = Except.ok r →
        handleRtMessage sms (some (RtEvent.functionCall name args callId))
          = { toModel := [ModelOut.functionCallOutput callId r], toTwilio := [], threw := false }) ∧
    (∀ frames c, outputCountFor c (processRtFrames sms frames) = callCountFor c frames) := by
  constructor
  · intro name args callId r hr
    simp [handleRtMessage, hr]
  · intro frames c
    induction frames with
    | nil => rfl
    | cons f rest ih =>
      cases f with
      | none =>
        simpa [processRtFrames, handleRtMessage, outputCountFor, callCountFor,
          List.countP_cons, List.countP_append] using ih
      | some ef =>
        cases ef with
        | audioDelta a =>
          simpa [processRtFrames, handleRtMessage, outputCountFor, callCountFor,
            List.countP_cons, List.countP_append] using ih
        | functionCall n a cid =>
          obtain ⟨r, hr⟩ := handleToolCall_ok sms hok n (a.getD {})
          simp [processRtFrames, handleRtMessage, hr, outputCountFor, callCountFor,
            List.countP_cons, List.countP_append] at ih ⊢
          omega
        | errorEvt =>
          simpa [processRtFrames, handleRtMessage, outputCountFor, callCountFor,
            List.countP_cons, List.countP_append] using ih
        | other t =>
          simpa [processRtFrames, handleRtMessage, outputCountFor, callCountFor,
            List.countP_cons, List.countP_append] using ih

/-- Witness for C1 at a concrete transport and frame sequence. -/
theorem c1_function_call_exactly_one_result_witness :
    smsAlwaysOk smsOkStub ∧
    outputCountFor "call_1" (processRtFrames smsOkStub
        [some (RtEvent.functionCall "getSlots" none "call_1"),
         some (RtEvent.audioDelta "AAAA"), none])
      = callCountFor "call_1"
        [some (RtEvent.functionCall "getSlots" none "call_1"),
         some (RtEvent.audioDelta "AAAA"), none] :=
  ⟨fun _ _ => ⟨"SM123", rfl⟩,
   (c1_function_call_exactly_one_result smsOkStub (fun _ _ => ⟨"SM123", rfl⟩)).2
     [some (RtEvent.functionCall "getSlots" none "call_1"),
      some (RtEvent.audioDelta "AAAA"), none] "call_1"⟩

/-- C2: for every stop event received from the call leg while the session is
ACTIVE (model leg ready), exactly one commit instruction followed by exactly
one response-request instruction is sent to the model leg, in that order,
once per stop: the handler for a stop emits exactly the ordered pair, and
over any frame sequence the number of commits and of response requests each
equals the number of stops. -/
theorem c2_stop_commit_then_response_create :
    handleTwilioMessage true (some TwilioEvent.stop)
      = { toModel := [ModelOut.commit, ModelOut.responseCreate], toTwilio := [], threw := false } ∧
    ∀ frames, commitCount (processTwilioFrames true frames) = stopCount frames ∧
      responseCreateCount (processTwilioFrames true frames) = stopCount frames := by
  refine ⟨rfl, ?_⟩
  intro frames
  induction frames with
  | nil => exact ⟨rfl, rfl⟩
  | cons f rest ih =>
    cases f with
    | none =>
      simpa [processTwilioFrames, handleTwilioMessage, stopCount, commitCount,
        responseCreateCount, List.countP_cons, List.countP_append] using ih
    | some ef =>
      cases ef with
      | start cs =>
        simpa [processTwilioFrames, handleTwilioMessage, stopCount, commitCount,
          responseCreateCount, List.countP_cons, List.countP_append] using ih
      | media p =>
        cases p with
        | none =>
          simpa [processTwilioFrames, handleTwilioMessage, stopCount, commitCount,
            responseCreateCount, List.countP_cons, List.countP_append] using ih
        | some payload =>
          simpa [processTwilioFrames, handleTwilioMessage, stopCount, commitCount,
            responseCreateCount, List.countP_cons, List.countP_append] using ih
      | stop =>
        simp [processTwilioFrames, handleTwilioMessage, stopCount, commitCount,
          responseCreateCount, List.countP_cons, List.countP_append] at ih ⊢
        omega
      | other e =>
        simpa [processTwilioFrames, handleTwilioMessage, stopCount, commitCount,
          responseCreateCount, List.countP_cons, List.countP_append] using ih

/-- C3: when the tool handler throws for a function-call event, the failure
is caught (and logged): nothing at all is sent on either leg for that
request, no exception escapes the callback, and the connections are not
closed. -/
theorem c3_tool_failure_silent (sms : SmsTransport) (name : String)
    (args : Option Args) (callId : String) (e : String)
    (he : (handleToolCall sms name (args.getD {})).1 = Except.error e) :
    handleRtMessage sms (some (RtEvent.functionCall name args callId))
      = { toModel := [], toTwilio := [], threw := false } := by
  simp [handleRtMessage, he]

/-- Witness for C3: a failing transport makes the sendSMS tool throw, and the
handler emits nothing. -/
theorem c3_tool_failure_silent_witness :
    (handleToolCall smsFailStub "sendSMS"
        ((some { sendTo := some "+15550000000", message := some "hi" } : Option Args).getD {})).1
      = Except.error "sms send failed" ∧
    handleRtMessage smsFailStub (some (RtEvent.functionCall "sendSMS"
        (some { sendTo := some "+15550000000", message := some "hi" }) "call_9"))
      = { toModel := [], toTwilio := [], threw := false } :=
  ⟨rfl, c3_tool_failure_silent smsFailStub "sendSMS"
    (some { sendTo := some "+15550000000", message := some "hi" }) "call_9"
    "sms send failed" rfl⟩

/-- C4 counterexample: with a transport whose send throws, booking the known
slot wed-0900 with a phone number does not return a success result at all:
the dispatcher call itself fails with the SMS error (the source has no
try/catch around the sendSMS call inside bookSlot). -/
theorem c4_counterexample :
    (handleToolCall smsFailStub "bookSlot" janeArgs).1 = Except.error "sms send failed" ∧
    (handleToolCall smsFailStub "bookSlot" janeArgs).1 ≠ Except.ok (ToolResult.booked wedSlot) :=
  ⟨rfl, fun h => Except.noConfusion h⟩

/-- C4 amended: for a booking of a known slot with a phone number, a failure
of the SMS send is not caught inside the dispatcher: the dispatcher call
fails with the same error (after having attempted exactly that one send), and
the success result is returned exactly when the send succeeds. -/
theorem c4_sms_failure_fails_booking (sms : SmsTransport) (args : Args)
    (found : Slot)
    (hfind : SLOTS.find? (fun s => args.slotId == some s.id) = some found)
    (hphone : jsTruthy args.phone = true) :
    (∀ e, sms args.phone (some (bookBody found)) = Except.error e →
        handleToolCall sms "bookSlot" args
          = (Except.error e, [⟨args.phone, some (bookBody found)⟩])) ∧
    (∀ sid, sms args.phone (some (bookBody found)) = Except.ok sid →
        handleToolCall sms "bookSlot" args
          = (Except.ok (ToolResult.booked found), [⟨args.phone, some (bookBody found)⟩])) := by
  constructor
  · intro e he
    unfold handleToolCall
    rw [bookSlot_eq, show initialState.slots = SLOTS from rfl, hfind]
    simp [hphone, he]
  · intro sid hs
    unfold handleToolCall
    rw [bookSlot_eq, show initialState.slots = SLOTS from rfl, hfind]
    simp [hphone, hs]

/-- Witness for C4 amended, at the failing stub transport and the concrete
booking example. -/
theorem c4_sms_failure_fails_booking_witness :
    SLOTS.find? (fun s => janeArgs.slotId == some s.id) = some wedSlot ∧
    jsTruthy janeArgs.phone = true ∧
    handleToolCall smsFailStub "bookSlot" janeArgs
      = (Except.error "sms send failed", [⟨janeArgs.phone, some (bookBody wedSlot)⟩]) :=
  ⟨rfl, rfl,
   (c4_sms_failure_fails_booking smsFailStub janeArgs wedSlot rfl rfl).1
     "sms send failed" rfl⟩

/-- C5: with a succeeding SMS transport, booking an unknown slot id returns
the not-found failure result, booking a known slot id returns the success
result carrying that slot (hence its label), and in particular the wed-0900
example succeeds with the label Wed 9:00 AM (Dr. Lee) while the nope example
fails with Slot not found. -/
theorem c5_reserve_results (sms : SmsTransport) (hok : smsAlwaysOk sms) :
    (handleToolCall sms "bookSlot" janeArgs).1 = Except.ok (ToolResult.booked wedSlot) ∧
    (handleToolCall sms "bookSlot" nopeArgs).1 = Except.ok (ToolResult.err "Slot not found") ∧
    (∀ args, SLOTS.find? (fun s => args.slotId == some s.id) = none →
        (handleToolCall sms "bookSlot" args).1 = Except.ok (ToolResult.err "Slot not found")) ∧
    (∀ args found, SLOTS.find? (fun s => args.slotId == some s.id) = some found →
        (handleToolCall sms "bookSlot" args).1 = Except.ok (ToolResult.booked found)) := by
  have hnone : ∀ args : Args, SLOTS.find? (fun s => args.slotId == some s.id) = none →
      (handleToolCall sms "bookSlot" args).1 = Except.ok (ToolResult.err "Slot not found") := by
    intro args hf
    unfold handleToolCall
    rw [bookSlot_eq, show initialState.slots = SLOTS from rfl, hf]
  exact ⟨bookSlot_ok sms hok janeArgs wedSlot rfl, hnone nopeArgs rfl, hnone,
    fun args found hfind => bookSlot_ok sms hok args found hfind⟩

/-- Witness for C5 at the always-succeeding stub transport. -/
theorem c5_reserve_results_witness :
    smsAlwaysOk smsOkStub ∧
    (handleToolCall smsOkStub "bookSlot" janeArgs).1
      = Except.ok (ToolResult.booked wedSlot) ∧
    (handleToolCall smsOkStub "bookSlot" nopeArgs).1
      = Except.ok (ToolResult.err "Slot not found") :=
  ⟨fun _ _ => ⟨"SM123", rfl⟩,
   (c5_reserve_results smsOkStub (fun _ _ => ⟨"SM123", rfl⟩)).1,
   (c5_reserve_results smsOkStub (fun _ _ => ⟨"SM123", rfl⟩)).2.1⟩

/-- C6 counterexample: the question Do you take Cigna? matches none of the
keywords (in particular not the literal keyword insurance), so getFAQ returns
the fixed deflection answer, not the insurance string the claim names. -/
theorem c6_counterexample :
    (handleToolCall smsOkStub "getFAQ" { question := some "Do you take Cigna?" }).1
      = Except.ok (ToolResult.answer FAQ_DEFLECT) ∧ FAQ_DEFLECT ≠ FAQ.insurance :=
  ⟨rfl, by decide⟩

/-- C6 amended: for every question string, getFAQ performs a case-insensitive
substring match against the fixed keyword table in priority order hours,
address/location, insurance, parking, new-patient, first match winning, with
the fixed deflection answer when no keyword matches; the hours example
returns the hours string, the flight-schedule example returns the deflection
string, and the Cigna example returns the deflection string as well (the
table matches the literal keyword insurance, not insurer names). -/
theorem c6_faq_first_match (sms : SmsTransport) :
    (∀ q, (handleToolCall sms "getFAQ" { question := some q }).1
        = Except.ok (ToolResult.answer (specFaqLookup q))) ∧
    (handleToolCall sms "getFAQ" { question := some "What are your hours?" }).1
      = Except.ok (ToolResult.answer FAQ.hours) ∧
    (handleToolCall sms "getFAQ" { question := some "Do you take Cigna?" }).1
      = Except.ok (ToolResult.answer FAQ_DEFLECT) ∧
    (handleToolCall sms "getFAQ" { question := some "flight schedule" }).1
      = Except.ok (ToolResult.answer FAQ_DEFLECT) := by
  refine ⟨?_, rfl, rfl, rfl⟩
  intro q
  cases h1 : jsIncludes (jsToLower q) "hour" <;>
    cases h2 : jsIncludes (jsToLower q) "address" <;>
      cases h3 : jsIncludes (jsToLower q) "location" <;>
        cases h4 : jsIncludes (jsToLower q) "insurance" <;>
          cases h5 : jsIncludes (jsToLower q) "parking" <;>
            cases h6 : jsIncludes (jsToLower q) "new patient" <;>
              simp [handleToolCall, handleToolCallSt, specFaqLookup, specFaqTable,
                List.find?, h1, h2, h3, h4, h5, h6]

/-- C7: the dispatcher never removes or flags a slot: running any sequence of
tool calls (bookings included) leaves the server state unchanged, getSlots
afterwards still returns the full static slot list, and repeating the same
known booking any number of times succeeds every time. -/
theorem c7_reserve_no_mutation (sms : SmsTransport) (hok : smsAlwaysOk sms)
    (bargs : Args) (found : Slot)
    (hfind : SLOTS.find? (fun s => bargs.slotId == some s.id) = some found) :
    (∀ calls, runCalls sms calls initialState = initialState) ∧
    (∀ calls args, (handleToolCallSt sms "getSlots" args (runCalls sms calls initialState)).1.1
        = Except.ok (ToolResult.slots SLOTS)) ∧
    (∀ n, runResults sms (List.replicate n ("bookSlot", bargs)) initialState
        = List.replicate n (Except.ok (ToolResult.booked found))) := by
  have hrun : ∀ calls st, runCalls sms calls st = st := by
    intro calls
    induction calls with
    | nil => intro st; rfl
    | cons c rest ih =>
      intro st
      show runCalls sms rest (handleToolCallSt sms c.1 c.2 st).2 = st
      rw [handleToolCallSt_state, ih]
  refine ⟨fun calls => hrun calls initialState, ?_, ?_⟩
  · intro calls args
    rw [hrun]
    rfl
  · intro n
    induction n with
    | zero => rfl
    | succ m ih =>
      show (handleToolCallSt sms "bookSlot" bargs initialState).1.1
          :: runResults sms (List.replicate m ("bookSlot", bargs))
              (handleToolCallSt sms "bookSlot" bargs initialState).2
        = List.replicate (m + 1) (Except.ok (ToolResult.booked found))
      rw [handleToolCallSt_state, bookSlot_ok sms hok bargs found hfind, ih]
      rfl

/-- Witness for C7 at the always-succeeding stub transport: booking wed-0900
twice succeeds both times and getSlots still returns the full list. -/
theorem c7_reserve_no_mutation_witness :
    smsAlwaysOk smsOkStub ∧
    SLOTS.find? (fun s => janeArgs.slotId == some s.id) = some wedSlot ∧
    runResults smsOkStub (List.replicate 2 ("bookSlot", janeArgs)) initialState
      = List.replicate 2 (Except.ok (ToolResult.booked wedSlot)) ∧
    (handleToolCallSt smsOkStub "getSlots" {}
        (runCalls smsOkStub (List.replicate 2 ("bookSlot", janeArgs)) initialState)).1.1
      = Except.ok (ToolResult.slots SLOTS) :=
  ⟨fun _ _ => ⟨"SM123", rfl⟩, rfl,
   (c7_reserve_no_mutation smsOkStub (fun _ _ => ⟨"SM123", rfl⟩) janeArgs wedSlot rfl).2.2 2,
   (c7_reserve_no_mutation smsOkStub (fun _ _ => ⟨"SM123", rfl⟩) janeArgs wedSlot rfl).2.1
     (List.replicate 2 ("bookSlot", janeArgs)) {}⟩

/-- C8: getSlots returns the full static slot list and ignores its date,
provider and window filter parameters: any two argument objects (and any two
transports) give the identical result. -/
theorem c8_getSlots_ignores_filters (sms sms' : SmsTransport) (args args' : Args)
    (st : ServerState) :
    handleToolCallSt sms "getSlots" args st = handleToolCallSt sms' "getSlots" args' st ∧
    (handleToolCall sms "getSlots" args).1 = Except.ok (ToolResult.slots SLOTS) ∧
    (handleToolCall sms "getSlots" args).2 = [] :=
  ⟨rfl, rfl, rfl⟩

/-- C9: a malformed or unparseable inbound frame on either leg is discarded:
no instruction is emitted on either leg, no exception escapes the handler,
and the connection is not failed; likewise a media frame whose media object
is missing. -/
theorem c9_malformed_frames_discarded (rtReady : Bool) (sms : SmsTransport) :
    handleTwilioMessage rtReady none = { toModel := [], toTwilio := [], threw := false } ∧
    handleRtMessage sms none = { toModel := [], toTwilio := [], threw := false } ∧
    handleTwilioMessage rtReady (some (TwilioEvent.media none))
      = { toModel := [], toTwilio := [], threw := false } :=
  ⟨rfl, rfl, rfl⟩

/-- C10: every operation name outside the closed set getFAQ, getSlots,
bookSlot, sendSMS makes the dispatcher return the Unknown tool failure
result, with no SMS transport call and no state change, for all argument
objects. -/
theorem c10_unknown_tool (sms : SmsTransport) (name : String) (args : Args)
    (st : ServerState) (h1 : name ≠ "getFAQ") (h2 : name ≠ "getSlots")
    (h3 : name ≠ "bookSlot") (h4 : name ≠ "sendSMS") :
    handleToolCallSt sms name args st
      = ((Except.ok (ToolResult.err "Unknown tool"), []), st) := by
  unfold handleToolCallSt
  rw [if_neg h1, if_neg h2, if_neg h3, if_neg h4]

/-- Witness for C10 at a concrete unknown operation name. -/
theorem c10_unknown_tool_witness :
    ("getWeather" : String) ≠ "getFAQ" ∧
    handleToolCallSt smsOkStub "getWeather" {} initialState
      = ((Except.ok (ToolResult.err "Unknown tool"), []), initialState) :=
  ⟨by decide,
   c10_unknown_tool smsOkStub "getWeather" {} initialState
     (by decide) (by decide) (by decide) (by decide)⟩

end DentistAI
